import Mathlib

/- Verification development for the open-geodata-browser QGIS plugin.

The Python modules under src/ are shallowly embedded: pure logic is
translated into executable Lean definitions, the QSettings store and the
json library are modelled by their observable behaviour (a stored blob is
either a string that parses to a JSON object, a string that json.loads
rejects, the empty string, or absent; json.dumps of an object followed by
json.loads yields the object back), and external network calls are
modelled by their outcome (a value or a raised exception).
-/

/-- JSON-serializable Python values as they occur in this plugin:
strings, booleans, integers, and objects (insertion-ordered mappings). -/
inductive JVal where
  | str (s : String)
  | bool (b : Bool)
  | num (n : Int)
  | obj (kvs : List (String × JVal))

/-- A Python dict with string keys, as an insertion-ordered association
list. Actual Python dicts never hold a key twice. -/
abbrev Dict := List (String × JVal)

/-- Python d.get(k): the value at the first occurrence of key k, if any. -/
def dictGet : Dict → String → Option JVal
  | [], _ => none
  | p :: rest, k => if p.1 == k then some p.2 else dictGet rest k

/-- Python d.get(k, dflt). -/
def dictGetD (d : Dict) (k : String) (dflt : JVal) : JVal :=
  (dictGet d k).getD dflt

/-- Python d[k] = v: replace the value at an existing key in place,
otherwise append the new pair at the end. -/
def dictSet : Dict → String → JVal → Dict
  | [], k, v => [(k, v)]
  | p :: rest, k, v => if p.1 == k then (k, v) :: rest else p :: dictSet rest k v

/-- Python del d[k]: drop the pairs whose key is k (a real dict holds the
key at most once). -/
def dictDel : Dict → String → Dict
  | [], _ => []
  | p :: rest, k => if p.1 == k then dictDel rest k else p :: dictDel rest k

theorem dictGet_dictSet_self (d : Dict) (k : String) (v : JVal) :
    dictGet (dictSet d k v) k = some v := by
  induction d with
  | nil => simp [dictSet, dictGet]
  | cons p rest ih =>
    by_cases hp : p.1 == k
    · simp [dictSet, hp, dictGet]
    · simp [dictSet, hp, dictGet, ih]

theorem dictGet_dictDel_self (d : Dict) (k : String) :
    dictGet (dictDel d k) k = none := by
  induction d with
  | nil => simp [dictDel, dictGet]
  | cons p rest ih =>
    by_cases hp : p.1 == k
    · simp [dictDel, hp, ih]
    · simp [dictDel, hp, dictGet, ih]

theorem dictGet_dictDel_other (d : Dict) (k k2 : String) (hne : k2 ≠ k) :
    dictGet (dictDel d k) k2 = dictGet d k2 := by
  induction d with
  | nil => rfl
  | cons p rest ih =>
    by_cases hp : p.1 == k
    · have hk : p.1 = k := by simpa using hp
      have : (p.1 == k2) = false := by
        simp [hk]
        exact fun h => hne h.symm
      simp [dictDel, hp, dictGet, this, ih]
    · simp [dictDel, hp, dictGet, ih]

theorem dictGet_none_of_dictDel_noop (d : Dict) (k : String)
    (h : (dictGet d k).isSome = false) : dictGet d k = none := by
  cases hd : dictGet d k with
  | none => rfl
  | some v => rw [hd] at h; simp at h

namespace ConnectionManager

/-- Value stored at the settings key OpenGeodataBrowser/connections, as
seen through QSettings.value and json.loads. -/
inductive Blob where
  | objStr (kvs : Dict)
  | malformed
  | emptyStr
  | missing

/-- Translation of ConnectionManager.DEFAULT_CONNECTIONS. -/
def DEFAULT_CONNECTIONS : List (String × Dict) :=
  [("Planetary Computer",
    [("url", JVal.str "https://planetarycomputer.microsoft.com/api/stac/v1"),
     ("username", JVal.str ""),
     ("password", JVal.str ""),
     ("auto_sign", JVal.bool true)]),
   ("AWS EarthSearch",
    [("url", JVal.str "https://earth-search.aws.element84.com/v1"),
     ("username", JVal.str ""),
     ("password", JVal.str ""),
     ("auto_sign", JVal.bool false)])]

/-- Translation of ConnectionManager.get_all_connections: the stored
string is parsed with json.loads; an absent key yields the default
string of an empty object, an empty string yields an empty dict without
parsing, and a JSONDecodeError is caught and yields an empty dict. -/
def get_all_connections : Blob → Dict
  | .objStr kvs => kvs
  | .malformed => []
  | .emptyStr => []
  | .missing => []

/-- Companion view of get_all_connections recording whether its
JSONDecodeError handler logged the warning message. -/
def get_all_connections_warns : Blob → Bool
  | .malformed => true
  | _ => false

/-- Translation of ConnectionManager.get_connection. -/
def get_connection (b : Blob) (name : String) : Option JVal :=
  dictGet (get_all_connections b) name

/-- Translation of ConnectionManager.save_connection: normalize the
config into the four-field record, store it under the name, and write
the json.dumps of the resulting mapping back to settings. -/
def save_connection (b : Blob) (name : String) (config : Dict) : Blob :=
  Blob.objStr (dictSet (get_all_connections b) name (JVal.obj
    [("url", dictGetD config "url" (JVal.str "")),
     ("username", dictGetD config "username" (JVal.str "")),
     ("password", dictGetD config "password" (JVal.str "")),
     ("auto_sign", dictGetD config "auto_sign" (JVal.bool false))]))

/-- Translation of ConnectionManager.delete_connection: only when the
name is present is the pair removed and the mapping written back;
otherwise the settings value is left exactly as it was. -/
def delete_connection (b : Blob) (name : String) : Blob :=
  if (dictGet (get_all_connections b) name).isSome then
    Blob.objStr (dictDel (get_all_connections b) name)
  else b

/-- Translation of ConnectionManager.get_connection_names. -/
def get_connection_names (b : Blob) : List String :=
  (get_all_connections b).map (fun p => p.1)

/-- Translation of ConnectionManager._ensure_defaults, run by the
constructor: save every default connection when no connection exists. -/
def ensure_defaults (b : Blob) : Blob :=
  if (get_all_connections b).isEmpty then
    DEFAULT_CONNECTIONS.foldl (fun acc nc => save_connection acc nc.1 nc.2) b
  else b

/-- Shape of a persisted profile record: a JSON object with exactly the
four fields url, username, password, auto_sign, in that order. -/
def isProfileRecord : JVal → Bool
  | .obj kvs => kvs.map (fun p => p.1) == ["url", "username", "password", "auto_sign"]
  | _ => false

/-- Shape of the persisted store: a text-serialized JSON object mapping
names to four-field profile records. -/
def storeShaped : Blob → Bool
  | .objStr kvs => kvs.all (fun p => isProfileRecord p.2)
  | _ => false

end ConnectionManager

/-- A finite-decimal number value, the exact value of a parsed decimal
literal: mantissa times ten to the minus scale. Python float is binary
floating point; no claim depends on its rounding, so the exact decimal
stands for it. -/
structure PyFloat where
  mantissa : Int
  scale : Nat
deriving DecidableEq

namespace GeodataBrowserDialog

/-- Drop leading spaces of a character list. -/
def dropSpaces (cs : List Char) : List Char :=
  cs.dropWhile (fun c => c = ' ')

/-- Strip spaces from both ends, as Python float does on its argument. -/
def trimSpaces (cs : List Char) : List Char :=
  (dropSpaces (dropSpaces cs).reverse).reverse

/-- Value of a list of decimal digits. -/
def digitsToNat (cs : List Char) : Nat :=
  cs.foldl (fun acc c => acc * 10 + (c.toNat - 48)) 0

/-- All characters are decimal digits. -/
def allDigits (cs : List Char) : Bool :=
  cs.all (fun c => c.isDigit)

/-- Split at the first dot: the part before it and, when a dot occurs,
the part after it. -/
def upToDot : List Char → List Char × Option (List Char)
  | [] => ([], none)
  | c :: rest =>
    if c = '.' then ([], some rest)
    else
      let r := upToDot rest
      (c :: r.1, r.2)

/-- Model of the Python builtin float applied to a string: an optional
sign followed by a plain decimal literal with an optional fractional
part, surrounded by optional spaces; anything else raises ValueError,
modelled as none. Exponents and the inf and nan forms are omitted; no
claim depends on the exact accepted language. -/
def pyFloat (s : String) : Option PyFloat :=
  let cs := trimSpaces s.toList
  let sign : Int := match cs with | '-' :: _ => -1 | _ => 1
  let body : List Char :=
    match cs with
    | '-' :: rest => rest
    | '+' :: rest => rest
    | _ => cs
  match upToDot body with
  | (ip, none) =>
    if !ip.isEmpty && allDigits ip then some ⟨sign * (digitsToNat ip : Int), 0⟩
    else none
  | (ip, some fp) =>
    if allDigits ip && allDigits fp && !fp.contains '.' && (!ip.isEmpty || !fp.isEmpty) then
      some ⟨sign * ((digitsToNat ip * 10 ^ fp.length + digitsToNat fp : Nat) : Int), fp.length⟩
    else none

/-- Python truthiness of the values a connection lookup can produce. -/
def truthy : JVal → Bool
  | .str s => !s.isEmpty
  | .bool b => b
  | .num n => n != 0
  | .obj kvs => !kvs.isEmpty

/-- Inputs of the search tab as read by perform_search: the four
bounding-box line edits hold raw text, the cloud-cover widget is a
slider whose value is an integer, and the result limit is a spin box. -/
structure DialogState where
  bboxWest : String
  bboxSouth : String
  bboxEast : String
  bboxNorth : String
  providerCombo : String
  blob : ConnectionManager.Blob
  selectedCollections : List String
  startDate : String
  endDate : String
  cloudCover : Int
  limit : Nat

/-- Arguments with which perform_search calls stac_client.search_items. -/
structure SearchRequest where
  connection : JVal
  collections : List String
  bbox : List PyFloat
  datetime : String
  cloud_cover : Int
  limit : Nat

/-- Outcome of perform_search up to the point where the request is
handed to the STAC client: a warning dialog and no request, a request,
or the outer exception handler showing an error. -/
inductive SearchOutcome where
  | warned (msg : String)
  | requested (req : SearchRequest)
  | errored (msg : String)

/-- Translation of GeodataBrowserDialog.validate_search_params: the four
bounding-box texts are fed to float inside a try block; a ValueError
makes it show a warning and report failure. -/
def validate_search_params (st : DialogState) : Bool :=
  (pyFloat st.bboxWest).isSome && (pyFloat st.bboxSouth).isSome &&
  (pyFloat st.bboxEast).isSome && (pyFloat st.bboxNorth).isSome

/-- Translation of GeodataBrowserDialog.perform_search up to the call of
stac_client.search_items: validate the bounding box, look the selected
connection up (a falsy value is rejected like None), require at least
one selected collection, convert the bounding-box texts with float, and
issue the request with the slider value as cloud cover. A float failure
after validation would be caught by the outer handler. -/
def perform_search (st : DialogState) : SearchOutcome :=
  if validate_search_params st then
    match ConnectionManager.get_connection st.blob st.providerCombo with
    | none => SearchOutcome.warned "Please select a valid connection"
    | some connection =>
      if !truthy connection then SearchOutcome.warned "Please select a valid connection"
      else if st.selectedCollections.isEmpty then
        SearchOutcome.warned "Please select at least one collection"
      else
        match pyFloat st.bboxWest, pyFloat st.bboxSouth,
              pyFloat st.bboxEast, pyFloat st.bboxNorth with
        | some w, some s, some e, some n =>
          SearchOutcome.requested
            ⟨connection, st.selectedCollections, [w, s, e, n],
             st.startDate ++ "/" ++ st.endDate, st.cloudCover, st.limit⟩
        | _, _, _, _ => SearchOutcome.errored "Search failed"
  else SearchOutcome.warned "Please provide valid bounding box coordinates"

end GeodataBrowserDialog

/-- Python exceptions raised by ClientManager.get_client. -/
inductive PyError where
  | runtimeError (msg : String)
  | valueError (msg : String)
deriving DecidableEq

namespace ClientManager

/-- State of a ClientManager instance: the two client attributes and the
initialization flag. The external client objects are opaque, so their
type is a parameter. -/
structure State (Client : Type) where
  pc_client : Option Client
  es_client : Option Client
  clients_initialized : Bool

/-- Translation of ClientManager.__init__. -/
def init {Client : Type} : State Client :=
  ⟨none, none, false⟩

/-- Translation of ClientManager.initialize_clients: the external call
ogapi.get_clients is modelled by its outcome, a pair of clients or a
raised exception (none). On success both attributes and the flag are
set and True is returned; the handler logs and returns False on
failure, leaving the state unchanged. -/
def initialize_clients {Client : Type} (self : State Client)
    (get_clients_result : Option (Client × Client)) : State Client × Bool :=
  match get_clients_result with
  | some clients => (⟨some clients.1, some clients.2, true⟩, true)
  | none => (self, false)

/-- Translation of ClientManager.get_client. -/
def get_client {Client : Type} (self : State Client) (provider : String) :
    Except PyError (Option Client) :=
  if !self.clients_initialized then
    Except.error (PyError.runtimeError
      "Clients not initialized. Call initialize_clients() first.")
  else if provider = "planetary_computer" then Except.ok self.pc_client
  else if provider = "earth_search" then Except.ok self.es_client
  else Except.error (PyError.valueError ("Unknown provider: " ++ provider))

/-- Translation of ClientManager.is_initialized. -/
def is_initialized {Client : Type} (self : State Client) : Bool :=
  self.clients_initialized

end ClientManager

/-- Outcome of an external call: the value it produced, or the message
of the exception it raised. -/
inductive ExtResult (α : Type) where
  | ok (value : α)
  | exn (e : String)

/-- Severity of a message sent to the QGIS log facility. -/
inductive LogLevel where
  | info
  | warning
  | critical
deriving DecidableEq

namespace CustomStacClient

/-- The only attribute of a pystac collection this plugin reads. -/
structure StacCollection where
  id : String

/-- Arguments of the client.search call made by search_items: the query
pair, when present, stands for the eo:cloud_cover lt bound. -/
structure StacSearchArgs where
  collections : List String
  bbox : Option (List PyFloat)
  datetime : Option String
  query : Option (String × Int)
  limit : Nat

/-- Translation of CustomStacClient.list_collections: opening the client
and listing its collections is one external interaction, modelled by its
outcome. On success the collection ids are returned; any exception is
caught, a critical message is logged, and the empty list is returned.
The second component records the levels of the logged messages. -/
def list_collections (call_result : ExtResult (List StacCollection)) :
    List String × List LogLevel :=
  match call_result with
  | .ok cols => (cols.map (fun c => c.id), [])
  | .exn _ => ([], [LogLevel.critical])

/-- Translation of CustomStacClient.search_items: the query dict gets an
eo:cloud_cover entry exactly when cloud_cover is not None, and an empty
query dict is passed as None. The client search and item listing are one
external interaction given by search_exec. On success the items are
returned and an info message logged; any exception is logged as critical
and re-raised unchanged, modelled by Except.error. -/
def search_items {Item : Type}
    (search_exec : StacSearchArgs → ExtResult (List Item))
    (collections : List String) (bbox : Option (List PyFloat))
    (datetime : Option String) (cloud_cover : Option Int) (limit : Nat) :
    Except String (List Item) × List LogLevel :=
  let query : Option (String × Int) :=
    match cloud_cover with
    | some cc => some ("eo:cloud_cover", cc)
    | none => none
  match search_exec ⟨collections, bbox, datetime, query, limit⟩ with
  | .ok items => (Except.ok items, [LogLevel.info])
  | .exn e => (Except.error e, [LogLevel.critical])

end CustomStacClient

namespace AssetManager

/-- Translation of the loop of AssetManager.download_assets: each key is
processed inside a try block whose body resolves the asset url, builds
the file path, and downloads; that whole interaction is modelled by
download_ok, true when no exception was raised for the key. A success
appends the key to downloaded, a caught exception logs a warning and
appends the key to failed, and the loop then continues with the next
key. The pair (downloaded, failed) is returned. -/
def download_assets (download_ok : String → Bool) (asset_keys : List String) :
    List String × List String :=
  asset_keys.foldl
    (fun acc asset_key =>
      if download_ok asset_key then (acc.1 ++ [asset_key], acc.2)
      else (acc.1, acc.2 ++ [asset_key]))
    ([], [])

end AssetManager

namespace GeodataBrowserDialog

/-- Observable events of the sequential batch loops: a query of the
progress dialog Cancel flag at iteration i, the begin of the processing
of an asset key, and its completion with success or caught failure. -/
inductive LoopEvent where
  | check (i : Nat)
  | start (key : String)
  | finish (key : String) (ok : Bool)
deriving DecidableEq

/-- Translation of the loop of GeodataBrowserDialog._download_assets as
its event trace. Iteration i first queries progress.wasCanceled and
breaks out of the loop when it is set; otherwise the download of the
key runs inside a try block to completion (its success recorded by
download_ok), and the loop moves to the next key. -/
def download_loop_trace (wasCanceled : Nat → Bool) (download_ok : String → Bool) :
    List String → Nat → List LoopEvent
  | [], _ => []
  | key :: rest, i =>
    LoopEvent.check i ::
      (if wasCanceled i then []
       else LoopEvent.start key :: LoopEvent.finish key (download_ok key) ::
         download_loop_trace wasCanceled download_ok rest (i + 1))

/-- Translation of the loop of GeodataBrowserDialog.load_selected_assets
as its event trace, of the same shape as the download loop with
layer_loader.load_cog_layer as the processed operation. -/
def load_loop_trace (wasCanceled : Nat → Bool) (load_ok : String → Bool) :
    List String → Nat → List LoopEvent
  | [], _ => []
  | key :: rest, i =>
    LoopEvent.check i ::
      (if wasCanceled i then []
       else LoopEvent.start key :: LoopEvent.finish key (load_ok key) ::
         load_loop_trace wasCanceled load_ok rest (i + 1))

/-- Number of iterations that run their processing before the Cancel
flag is first observed set, over the given keys starting at index i. -/
def cancel_point (wasCanceled : Nat → Bool) : List String → Nat → Nat
  | [], _ => 0
  | _ :: rest, i =>
    if wasCanceled i then 0 else cancel_point wasCanceled rest (i + 1) + 1

/-- Reference trace of an uncancelled sequential batch: per key exactly
one flag check, immediately followed by the begin of that key and its
uninterrupted completion. -/
def iteration_blocks (ok : String → Bool) : List String → Nat → List LoopEvent
  | [], _ => []
  | key :: rest, i =>
    LoopEvent.check i :: LoopEvent.start key :: LoopEvent.finish key (ok key) ::
      iteration_blocks ok rest (i + 1)

/-- Keys whose processing began, in trace order. -/
def started_keys (tr : List LoopEvent) : List String :=
  tr.filterMap (fun e =>
    match e with
    | .start key => some key
    | _ => none)

theorem started_keys_iteration_blocks (ok : String → Bool) (keys : List String) (i : Nat) :
    started_keys (iteration_blocks ok keys i) = keys := by
  induction keys generalizing i with
  | nil => rfl
  | cons key rest ih => simp [iteration_blocks, started_keys, List.filterMap] at ih ⊢; exact ih _

theorem download_loop_trace_shape (wasCanceled : Nat → Bool) (download_ok : String → Bool)
    (keys : List String) (i : Nat) :
    download_loop_trace wasCanceled download_ok keys i =
      iteration_blocks download_ok (keys.take (cancel_point wasCanceled keys i)) i ++
        (if cancel_point wasCanceled keys i < keys.length then
          [LoopEvent.check (i + cancel_point wasCanceled keys i)] else []) := by
  induction keys generalizing i with
  | nil => simp [download_loop_trace, cancel_point, iteration_blocks]
  | cons key rest ih =>
    cases hc : wasCanceled i with
    | true => simp [download_loop_trace, cancel_point, hc, iteration_blocks]
    | false =>
      have harith : i + 1 + cancel_point wasCanceled rest (i + 1) =
          i + (cancel_point wasCanceled rest (i + 1) + 1) := by omega
      simp [download_loop_trace, cancel_point, hc, iteration_blocks,
        ih (i + 1), Nat.succ_lt_succ_iff, harith]

theorem load_loop_trace_shape (wasCanceled : Nat → Bool) (load_ok : String → Bool)
    (keys : List String) (i : Nat) :
    load_loop_trace wasCanceled load_ok keys i =
      iteration_blocks load_ok (keys.take (cancel_point wasCanceled keys i)) i ++
        (if cancel_point wasCanceled keys i < keys.length then
          [LoopEvent.check (i + cancel_point wasCanceled keys i)] else []) := by
  induction keys generalizing i with
  | nil => simp [load_loop_trace, cancel_point, iteration_blocks]
  | cons key rest ih =>
    cases hc : wasCanceled i with
    | true => simp [load_loop_trace, cancel_point, hc, iteration_blocks]
    | false =>
      have harith : i + 1 + cancel_point wasCanceled rest (i + 1) =
          i + (cancel_point wasCanceled rest (i + 1) + 1) := by omega
      simp [load_loop_trace, cancel_point, hc, iteration_blocks,
        ih (i + 1), Nat.succ_lt_succ_iff, harith]

end GeodataBrowserDialog

open ConnectionManager GeodataBrowserDialog

/-- C1: saving a connection and reading it back by name yields the
normalized four-field record built from the config with the documented
defaults, for every prior store content, every name, and every config
dict, whatever other keys the config holds. -/
theorem C1_save_get_roundtrip (b : Blob) (name : String) (config : Dict) :
    get_connection (save_connection b name config) name =
      some (JVal.obj
        [("url", dictGetD config "url" (JVal.str "")),
         ("username", dictGetD config "username" (JVal.str "")),
         ("password", dictGetD config "password" (JVal.str "")),
         ("auto_sign", dictGetD config "auto_sign" (JVal.bool false))]) := by
  simp [get_connection, save_connection, get_all_connections, dictGet_dictSet_self]

/-- C2: a stored connections blob that json.loads rejects makes
get_all_connections return the empty mapping and log a warning, so
get_connection finds nothing, get_connection_names is empty,
save_connection starts from an empty mapping, and delete_connection
leaves the blob untouched; none of them raises. -/
theorem C2_malformed_blob_degrades (name : String) (config : Dict) :
    get_all_connections Blob.malformed = [] ∧
    get_all_connections_warns Blob.malformed = true ∧
    get_connection Blob.malformed name = none ∧
    get_connection_names Blob.malformed = [] ∧
    save_connection Blob.malformed name config =
      Blob.objStr [(name, JVal.obj
        [("url", dictGetD config "url" (JVal.str "")),
         ("username", dictGetD config "username" (JVal.str "")),
         ("password", dictGetD config "password" (JVal.str "")),
         ("auto_sign", dictGetD config "auto_sign" (JVal.bool false))])] ∧
    delete_connection Blob.malformed name = Blob.malformed :=
  ⟨rfl, rfl, rfl, rfl, rfl, rfl⟩

theorem dictSet_all (f : String × JVal → Bool) (d : Dict) (k : String) (v : JVal)
    (hd : d.all f = true) (hv : f (k, v) = true) : (dictSet d k v).all f = true := by
  induction d with
  | nil => simp [dictSet, hv]
  | cons p rest ih =>
    simp only [List.all_cons, Bool.and_eq_true] at hd
    by_cases hp : p.1 == k
    · simp [dictSet, hp, hv, hd.2]
    · simp [dictSet, hp, hd.1, ih hd.2]

theorem dictDel_all (f : String × JVal → Bool) (d : Dict) (k : String)
    (hd : d.all f = true) : (dictDel d k).all f = true := by
  induction d with
  | nil => simp [dictDel]
  | cons p rest ih =>
    simp only [List.all_cons, Bool.and_eq_true] at hd
    by_cases hp : p.1 == k
    · simp [dictDel, hp, ih hd.2]
    · simp [dictDel, hp, hd.1, ih hd.2]

/-- C6: when the persisted store is a text-serialized flat mapping whose
records all have exactly the four fields url, username, password,
auto_sign, then after save_connection with any name and config, and
after delete_connection with any name, it still is. -/
theorem C6_store_shape_invariant (b : Blob) (name : String) (config : Dict)
    (h : storeShaped b = true) :
    storeShaped (save_connection b name config) = true ∧
    storeShaped (delete_connection b name) = true := by
  cases b with
  | objStr kvs =>
    simp only [storeShaped, get_all_connections] at h
    constructor
    · simp only [save_connection, get_all_connections, storeShaped]
      exact dictSet_all _ _ _ _ h rfl
    · by_cases hmem : (dictGet kvs name).isSome
      · simp only [delete_connection, get_all_connections, hmem, if_true, storeShaped]
        exact dictDel_all _ _ _ h
      · simp only [delete_connection, get_all_connections, hmem, Bool.false_eq_true,
          if_false, storeShaped]
        exact h
  | malformed => simp [storeShaped] at h
  | emptyStr => simp [storeShaped] at h
  | missing => simp [storeShaped] at h

/-- C6 witness: the shape hypothesis holds at a concrete shaped store,
and save_connection and delete_connection keep it. -/
theorem C6_store_shape_invariant_witness :
    storeShaped (save_connection (Blob.objStr []) "x" [("extra", JVal.num 3)]) = true ∧
    storeShaped (delete_connection (Blob.objStr []) "x") = true :=
  C6_store_shape_invariant (Blob.objStr []) "x" [("extra", JVal.num 3)] rfl

/-- C7: after delete_connection the deleted name resolves to nothing,
every other name resolves exactly as before, and deleting an absent
name leaves the stored blob untouched. -/
theorem C7_delete_roundtrip (b : Blob) (name : String) :
    get_connection (delete_connection b name) name = none ∧
    (∀ other : String, other ≠ name →
      get_connection (delete_connection b name) other = get_connection b other) ∧
    (get_connection b name = none → delete_connection b name = b) := by
  refine ⟨?_, ?_, ?_⟩
  · by_cases hmem : (dictGet (get_all_connections b) name).isSome
    · rw [delete_connection, if_pos hmem]
      simp only [get_connection, get_all_connections]
      exact dictGet_dictDel_self _ _
    · rw [delete_connection, if_neg hmem]
      exact dictGet_none_of_dictDel_noop (get_all_connections b) name (by simpa using hmem)
  · intro other hne
    by_cases hmem : (dictGet (get_all_connections b) name).isSome
    · rw [delete_connection, if_pos hmem]
      simp only [get_connection, get_all_connections]
      exact dictGet_dictDel_other _ _ _ hne
    · rw [delete_connection, if_neg hmem]
  · intro hnone
    have hmem : ¬((dictGet (get_all_connections b) name).isSome = true) := by
      simp only [get_connection] at hnone
      simp [hnone]
    rw [delete_connection, if_neg hmem]

/-- C7 witness: deletion at concrete stores, covering a present name, a
surviving second name, and an absent name. -/
theorem C7_delete_roundtrip_witness :
    get_connection (delete_connection
      (Blob.objStr [("a", JVal.str "u"), ("b", JVal.str "v")]) "a") "a" = none ∧
    get_connection (delete_connection
      (Blob.objStr [("a", JVal.str "u"), ("b", JVal.str "v")]) "a") "b" =
      get_connection (Blob.objStr [("a", JVal.str "u"), ("b", JVal.str "v")]) "b" ∧
    delete_connection (Blob.objStr [("b", JVal.str "v")]) "a" =
      Blob.objStr [("b", JVal.str "v")] :=
  ⟨(C7_delete_roundtrip (Blob.objStr [("a", JVal.str "u"), ("b", JVal.str "v")]) "a").1,
   (C7_delete_roundtrip (Blob.objStr [("a", JVal.str "u"), ("b", JVal.str "v")]) "a").2.1
     "b" (by decide),
   (C7_delete_roundtrip (Blob.objStr [("b", JVal.str "v")]) "a").2.2 rfl⟩

/-- C9: when the store resolves to no connections the constructor seeds
exactly the two default profiles, Planetary Computer with auto_sign true
and AWS EarthSearch with auto_sign false, both with their fixed urls and
empty credentials; when at least one connection exists the constructor
changes nothing. -/
theorem C9_ensure_defaults_spec (b : Blob) :
    (get_all_connections b = [] → ensure_defaults b = Blob.objStr
      [("Planetary Computer", JVal.obj
         [("url", JVal.str "https://planetarycomputer.microsoft.com/api/stac/v1"),
          ("username", JVal.str ""), ("password", JVal.str ""),
          ("auto_sign", JVal.bool true)]),
       ("AWS EarthSearch", JVal.obj
         [("url", JVal.str "https://earth-search.aws.element84.com/v1"),
          ("username", JVal.str ""), ("password", JVal.str ""),
          ("auto_sign", JVal.bool false)])]) ∧
    (get_all_connections b ≠ [] → ensure_defaults b = b) := by
  constructor
  · intro h
    have hsave : ∀ n : String, ∀ c : Dict,
        save_connection b n c = save_connection (Blob.objStr []) n c := by
      intro n c
      simp only [save_connection]
      rw [h]
      rfl
    simp only [ensure_defaults, h, List.isEmpty_nil, if_true, DEFAULT_CONNECTIONS,
      List.foldl_cons, List.foldl_nil, hsave]
    rfl
  · intro h
    cases hc : get_all_connections b with
    | nil => exact absurd hc h
    | cons p rest => simp [ensure_defaults, hc]

/-- C9 witness: seeding from an empty store and a no-op construction on
a nonempty store, at concrete blobs. -/
theorem C9_ensure_defaults_spec_witness :
    ensure_defaults Blob.missing = Blob.objStr
      [("Planetary Computer", JVal.obj
         [("url", JVal.str "https://planetarycomputer.microsoft.com/api/stac/v1"),
          ("username", JVal.str ""), ("password", JVal.str ""),
          ("auto_sign", JVal.bool true)]),
       ("AWS EarthSearch", JVal.obj
         [("url", JVal.str "https://earth-search.aws.element84.com/v1"),
          ("username", JVal.str ""), ("password", JVal.str ""),
          ("auto_sign", JVal.bool false)])] ∧
    ensure_defaults (Blob.objStr [("x", JVal.str "y")]) =
      Blob.objStr [("x", JVal.str "y")] :=
  ⟨(C9_ensure_defaults_spec Blob.missing).1 rfl,
   (C9_ensure_defaults_spec (Blob.objStr [("x", JVal.str "y")])).2 (by simp [get_all_connections])⟩

/-- C10: get_client raises RuntimeError while the clients are not
initialized; after a successful initialize_clients it returns the stored
planetary_computer and earth_search clients for those provider strings
and raises ValueError for every other provider string. -/
theorem C10_get_client_spec {Client : Type} (self : ClientManager.State Client)
    (provider : String) (pc es : Client) :
    (self.clients_initialized = false →
      ClientManager.get_client self provider =
        Except.error (PyError.runtimeError
          "Clients not initialized. Call initialize_clients() first.")) ∧
    (ClientManager.get_client (ClientManager.initialize_clients self (some (pc, es))).1
        "planetary_computer" = Except.ok (some pc) ∧
     ClientManager.get_client (ClientManager.initialize_clients self (some (pc, es))).1
        "earth_search" = Except.ok (some es) ∧
     (provider ≠ "planetary_computer" → provider ≠ "earth_search" →
       ClientManager.get_client (ClientManager.initialize_clients self (some (pc, es))).1
         provider =
         Except.error (PyError.valueError ("Unknown provider: " ++ provider)))) := by
  refine ⟨?_, rfl, rfl, ?_⟩
  · intro h
    simp [ClientManager.get_client, h]
  · intro h1 h2
    simp [ClientManager.initialize_clients, ClientManager.get_client, h1, h2]

/-- C10 witness: a fresh manager raises RuntimeError, and an initialized
manager raises ValueError on an unknown provider string. -/
theorem C10_get_client_spec_witness :
    ClientManager.get_client (ClientManager.init : ClientManager.State Nat) "foo" =
      Except.error (PyError.runtimeError
        "Clients not initialized. Call initialize_clients() first.") ∧
    ClientManager.get_client
      (ClientManager.initialize_clients (ClientManager.init : ClientManager.State Nat)
        (some (0, 1))).1 "foo" =
      Except.error (PyError.valueError ("Unknown provider: " ++ "foo")) :=
  ⟨(C10_get_client_spec (ClientManager.init : ClientManager.State Nat) "foo" 0 1).1 rfl,
   (C10_get_client_spec (ClientManager.init : ClientManager.State Nat) "foo" 0 1).2.2.2
     (by decide) (by decide)⟩

theorem download_assets_foldl_general (download_ok : String → Bool)
    (asset_keys : List String) (d f : List String) :
    asset_keys.foldl
      (fun acc asset_key =>
        if download_ok asset_key then (acc.1 ++ [asset_key], acc.2)
        else (acc.1, acc.2 ++ [asset_key])) (d, f) =
      (d ++ asset_keys.filter (fun k => download_ok k),
       f ++ asset_keys.filter (fun k => !download_ok k)) := by
  induction asset_keys generalizing d f with
  | nil => simp
  | cons k rest ih =>
    cases hk : download_ok k with
    | true => simp [hk, ih, List.filter_cons]
    | false => simp [hk, ih, List.filter_cons]

/-- C5: download_assets returns the pair of the keys whose download
raised no exception and the keys whose download raised, each in input
order; together they are a permutation of the input keys, so every
input key lands in exactly one of the two lists and a failure never
stops the batch. -/
theorem C5_download_assets_tally (download_ok : String → Bool) (asset_keys : List String) :
    AssetManager.download_assets download_ok asset_keys =
      (asset_keys.filter (fun k => download_ok k),
       asset_keys.filter (fun k => !download_ok k)) ∧
    ((AssetManager.download_assets download_ok asset_keys).1 ++
      (AssetManager.download_assets download_ok asset_keys).2).Perm asset_keys := by
  have h := download_assets_foldl_general download_ok asset_keys [] []
  simp only [List.nil_append] at h
  refine ⟨h, ?_⟩
  rw [AssetManager.download_assets, h]
  exact List.filter_append_perm _ _

/-- C4: when the underlying client call raises, list_collections logs a
critical message and returns the empty list, while search_items logs a
critical message and re-raises the same exception to its caller. -/
theorem C4_external_call_error_handling {Item : Type} (e : String)
    (collections : List String) (bbox : Option (List PyFloat)) (datetime : Option String)
    (cloud_cover : Option Int) (limit : Nat) :
    CustomStacClient.list_collections (ExtResult.exn e) = ([], [LogLevel.critical]) ∧
    @CustomStacClient.search_items Item (fun _ => ExtResult.exn e)
      collections bbox datetime cloud_cover limit =
      (Except.error e, [LogLevel.critical]) :=
  ⟨rfl, rfl⟩

theorem started_keys_append (tr1 tr2 : List LoopEvent) :
    started_keys (tr1 ++ tr2) = started_keys tr1 ++ started_keys tr2 := by
  simp [started_keys]

/-- C8: both batch loops produce a trace made of one Cancel-flag check
per iteration, placed immediately before that iteration begins its
asset, every begun asset completing uninterrupted, followed by at most
one final check at which cancellation is observed; consequently the
processed assets are exactly the keys before the cancellation point and
nothing is processed after cancellation is observed. -/
theorem C8_cancel_flag_loops (wc1 wc2 : Nat → Bool)
    (download_ok load_ok : String → Bool) (keys1 keys2 : List String) (i1 i2 : Nat) :
    download_loop_trace wc1 download_ok keys1 i1 =
      iteration_blocks download_ok (keys1.take (cancel_point wc1 keys1 i1)) i1 ++
        (if cancel_point wc1 keys1 i1 < keys1.length then
          [LoopEvent.check (i1 + cancel_point wc1 keys1 i1)] else []) ∧
    started_keys (download_loop_trace wc1 download_ok keys1 i1) =
      keys1.take (cancel_point wc1 keys1 i1) ∧
    load_loop_trace wc2 load_ok keys2 i2 =
      iteration_blocks load_ok (keys2.take (cancel_point wc2 keys2 i2)) i2 ++
        (if cancel_point wc2 keys2 i2 < keys2.length then
          [LoopEvent.check (i2 + cancel_point wc2 keys2 i2)] else []) ∧
    started_keys (load_loop_trace wc2 load_ok keys2 i2) =
      keys2.take (cancel_point wc2 keys2 i2) := by
  refine ⟨download_loop_trace_shape wc1 download_ok keys1 i1, ?_,
    load_loop_trace_shape wc2 load_ok keys2 i2, ?_⟩
  · rw [download_loop_trace_shape wc1 download_ok keys1 i1, started_keys_append,
      started_keys_iteration_blocks]
    cases hlt : decide (cancel_point wc1 keys1 i1 < keys1.length) with
    | true => simp [of_decide_eq_true hlt, started_keys]
    | false => simp [of_decide_eq_false hlt, started_keys]
  · rw [load_loop_trace_shape wc2 load_ok keys2 i2, started_keys_append,
      started_keys_iteration_blocks]
    cases hlt : decide (cancel_point wc2 keys2 i2 < keys2.length) with
    | true => simp [of_decide_eq_true hlt, started_keys]
    | false => simp [of_decide_eq_false hlt, started_keys]

/-- C3: a search request is issued only after the four bounding-box
texts were validated as parseable numbers, validation succeeding exactly
when all four parse; when validation fails a warning is shown and no
request is sent; and every issued request carries the four parsed
bounding-box numbers together with the cloud-cover value, which is read
from an integer slider and is therefore a number by construction rather
than by a parse check. -/
theorem C3_search_params_validated (st : DialogState) :
    (validate_search_params st = false →
      perform_search st = SearchOutcome.warned
        "Please provide valid bounding box coordinates") ∧
    (validate_search_params st = true ↔
      ((pyFloat st.bboxWest).isSome = true ∧ (pyFloat st.bboxSouth).isSome = true ∧
       (pyFloat st.bboxEast).isSome = true ∧ (pyFloat st.bboxNorth).isSome = true)) ∧
    (∀ req : SearchRequest, perform_search st = SearchOutcome.requested req →
      ∃ w s e n : PyFloat, pyFloat st.bboxWest = some w ∧ pyFloat st.bboxSouth = some s ∧
        pyFloat st.bboxEast = some e ∧ pyFloat st.bboxNorth = some n ∧
        req.bbox = [w, s, e, n] ∧ req.cloud_cover = st.cloudCover ∧
        req.limit = st.limit) := by
  refine ⟨?_, ?_, ?_⟩
  · intro h
    simp [perform_search, h]
  · simp [validate_search_params, and_assoc]
  · intro req hreq
    simp only [perform_search] at hreq
    cases hv : validate_search_params st with
    | false => rw [hv] at hreq; simp at hreq
    | true =>
      rw [hv] at hreq
      simp only [if_true] at hreq
      cases hc : ConnectionManager.get_connection st.blob st.providerCombo with
      | none => rw [hc] at hreq; simp at hreq
      | some conn =>
        rw [hc] at hreq
        simp only at hreq
        cases ht : truthy conn with
        | false => rw [ht] at hreq; simp at hreq
        | true =>
          rw [ht] at hreq
          simp only [Bool.not_true, Bool.false_eq_true, if_false] at hreq
          cases hemp : st.selectedCollections.isEmpty with
          | true => rw [hemp] at hreq; simp at hreq
          | false =>
            rw [hemp] at hreq
            simp only [Bool.false_eq_true, if_false] at hreq
            cases hw : pyFloat st.bboxWest with
            | none => rw [hw] at hreq; simp at hreq
            | some w =>
              cases hs : pyFloat st.bboxSouth with
              | none => rw [hw, hs] at hreq; simp at hreq
              | some s =>
                cases he : pyFloat st.bboxEast with
                | none => rw [hw, hs, he] at hreq; simp at hreq
                | some e =>
                  cases hn : pyFloat st.bboxNorth with
                  | none => rw [hw, hs, he, hn] at hreq; simp at hreq
                  | some n =>
                    rw [hw, hs, he, hn] at hreq
                    simp only [SearchOutcome.requested.injEq] at hreq
                    exact ⟨w, s, e, n, rfl, rfl, rfl, rfl, by rw [← hreq],
                      by rw [← hreq], by rw [← hreq]⟩

/-- C3 witness: a dialog state whose west text does not parse yields the
warning and no request, and a fully valid state yields a request whose
bounding box is the four parsed numbers and whose cloud cover is the
slider value. -/
theorem C3_search_params_validated_witness :
    perform_search
      ⟨"abc", "0", "0", "0", "PC", Blob.missing, [], "2024-01-01", "2024-01-02", 10, 100⟩ =
      SearchOutcome.warned "Please provide valid bounding box coordinates" ∧
    (∃ w s e n : PyFloat, pyFloat "1" = some w ∧ pyFloat "2" = some s ∧
      pyFloat "3" = some e ∧ pyFloat "4" = some n ∧
      ([⟨1, 0⟩, ⟨2, 0⟩, ⟨3, 0⟩, ⟨4, 0⟩] : List PyFloat) = [w, s, e, n] ∧
      (10 : Int) = (10 : Int) ∧ (100 : Nat) = (100 : Nat)) :=
  ⟨(C3_search_params_validated
      ⟨"abc", "0", "0", "0", "PC", Blob.missing, [], "2024-01-01", "2024-01-02", 10, 100⟩).1
      rfl,
   (C3_search_params_validated
      ⟨"1", "2", "3", "4", "PC", Blob.objStr [("PC", JVal.str "u")], ["sentinel-2"],
       "2024-01-01", "2024-01-02", 10, 100⟩).2.2
      ⟨JVal.str "u", ["sentinel-2"], [⟨1, 0⟩, ⟨2, 0⟩, ⟨3, 0⟩, ⟨4, 0⟩],
       "2024-01-01/2024-01-02", 10, 100⟩
      (by rfl)⟩
